import Mathlib

/-!
Verification of the conversation-and-capture controllers of the
Cavista2026-Forge triage frontends.  The development is a shallow embedding
of the two triage pages:

* `P0` embeds the doctor-assist page (`src/unnamed/part_000`,
  `DoctorAssistPage`): phases, message list, `handleSendMessage`,
  `buildHistory`, `continueConversation` resolution, `completeAssessment`,
  the recording lifecycle (`startRecording` / `stopRecording` /
  `cancelRecording` / `sendAudioMessage` and the recorder `onstop`
  callback) and `resetAssist`.
* `P2` embeds the triage page (`src/unnamed/part_002`, `TriagePage`):
  `send`, `buildHistory`, `completeAssessment`, `addStaff`, `startRec`,
  `stopRec` and `reset`.

Asynchronous service calls are embedded by passing the outcome of the call
(`Except String r`) as an argument; the part of a handler that runs when
the promise resolves is split into its own definition
(`continueResolveOk`, `sendResolveOk`) so that interleavings with `reset`
can be expressed.  Timers and audio playback are embedded as explicit
state fields (`timerActive`, `ttsPlaying`, `pendingStop`) updated exactly
where the source starts or stops them.
-/

namespace Cavista

/-- Model of the JavaScript string `trim()`: drop whitespace characters
from both ends of the string.  Structurally recursive so that concrete
instances evaluate inside the kernel. -/
def jsTrim (s : String) : String :=
  String.mk (((s.data.dropWhile Char.isWhitespace).reverse.dropWhile
    Char.isWhitespace).reverse)

/-- Response shape of the reasoning-service continue-conversation
operation (`copilotContinueConversation` / `triageContinue`): a reply text
plus the two completion signals. -/
structure ContinueResp where
  response : String
  should_auto_complete : Bool
  conversation_complete : Bool
deriving DecidableEq, Repr

/-- Risk level of a triage result. -/
inductive RiskLevel
  | high
  | moderate
  | low
deriving DecidableEq, Repr

/-- The recommendation block of a triage result, as consumed by the
results screens. -/
structure TriageRecommendation where
  urgency_level : String
  summary_of_findings : String
  recommended_actions_for_chw : List String
deriving DecidableEq, Repr

/-- Triage result returned by `processText` / `processAudio`.  The
`transcript` field is present on audio-path responses; the absent or
empty transcript both embed as `""` (both are falsy in the source). -/
structure TriageResult where
  risk_level : RiskLevel
  extracted_symptoms : List String
  triage_recommendation : TriageRecommendation
  transcript : String := ""
deriving DecidableEq, Repr

/-! ## P0: the doctor-assist page (`src/unnamed/part_000`) -/

namespace P0

/-- Message roles of the doctor-assist page (`AssistMessage.role`). -/
inductive Role
  | user
  | assistant
  | system
deriving DecidableEq, Repr

/-- One chat message (`AssistMessage`). -/
structure Msg where
  role : Role
  content : String
  isAudio : Bool := false
deriving DecidableEq, Repr

/-- The page phases (`AssistPhase`). -/
inductive Phase
  | language_select
  | conversation
  | results
deriving DecidableEq, Repr

/-- Recording states (`AssistRecordingState`). -/
inductive RecState
  | idle
  | recording
  | recorded
  | processing
deriving DecidableEq, Repr

/-- The page state: the React `useState` hooks plus the mutable refs and
ambient resources.  `chunks` is `audioChunksRef`, `pendingStop` records
that `recorder.stop()` was called but its `onstop` callback has not fired
yet, `timerActive` that `recordingTimerRef` holds a live interval, and
`ttsPlaying` that synthesized audio is currently playing. -/
structure State where
  phase : Phase
  messages : List Msg
  conversationContext : List String
  inputText : String
  loading : Bool
  autoCompleting : Bool
  error : String
  result : Option TriageResult
  greeting : String
  recordingState : RecState
  audioBlob : Option (List String)
  recordingTime : Nat
  timerActive : Bool
  chunks : List String
  pendingStop : Bool
  ttsPlaying : Bool
deriving DecidableEq, Repr

/-- `beginConversation`: enter the conversation phase seeded with the
greeting of the selected language. -/
def beginConversation (st : State) (greeting : String) : State :=
  { st with phase := .conversation,
            messages := [⟨.assistant, greeting, false⟩],
            conversationContext := [], inputText := "",
            result := none, error := "", greeting := greeting }

/-- `buildHistory`: drop system messages and tag each remaining message
with its speaker (`PATIENT` for the user, `YOU` otherwise), joined by
newlines. -/
def buildHistory (msgs : List Msg) : String :=
  String.intercalate "\n"
    ((msgs.filter (fun m => m.role ≠ .system)).map
      (fun m => (if m.role = .user then "PATIENT" else "YOU") ++ ": " ++ m.content))

/-- The system message appended by the `continueConversation` failure
branch. -/
def sysFailMsg : Msg := ⟨.system, "I could not process that. Please try again.", false⟩

/-- Resolution of a successful `copilotContinueConversation` call: append
the assistant reply (falling back to the greeting when the reply text is
empty, as `data.response || lang.greeting` does) to whatever the current
message list is — the source uses a functional `setMessages` update. -/
def continueResolveOk (resp : ContinueResp) (st : State) : State :=
  { st with messages := st.messages ++
      [⟨.assistant, if resp.response = "" then st.greeting else resp.response, false⟩] }

/-- Resolution of a failed `copilotContinueConversation` call: record the
error text and append the fixed system message. -/
def continueResolveErr (e : String) (st : State) : State :=
  { st with error := e, messages := st.messages ++ [sysFailMsg] }

/-- Outcome of one `handleSendMessage` call: the final state, how many
`copilotContinueConversation` calls were issued, and the delay (ms) of a
`completeAssessment` timeout if one was scheduled. -/
structure SendOutcome where
  state : State
  continueCalls : Nat
  scheduledDelayMs : Option Nat
deriving DecidableEq, Repr

/-- `handleSendMessage` followed by its inner `continueConversation`,
with the service outcome passed in.  The guard rejects when the trimmed
text is empty or `loading` is already set; otherwise the patient message
is appended, the service is called, and on success the assistant reply is
appended, scheduling `completeAssessment` after 1300 ms when the response
carries either completion signal. -/
def handleSendMessage (st : State) (prefill : Option String)
    (svc : Except String ContinueResp) : SendOutcome :=
  if jsTrim (prefill.getD st.inputText) = "" ∨ st.loading = true then
    ⟨st, 0, none⟩
  else
    let text := jsTrim (prefill.getD st.inputText)
    let st1 : State :=
      { st with error := "", loading := true,
                inputText := if prefill.isNone then "" else st.inputText }
    let st2 : State :=
      { st1 with messages := st1.messages ++ [⟨.user, text, false⟩],
                 conversationContext := st1.conversationContext ++ [text] }
    match svc with
    | .ok resp =>
        let st3 := continueResolveOk resp st2
        if resp.should_auto_complete || resp.conversation_complete then
          ⟨{ st3 with autoCompleting := true, loading := false }, 1, some 1300⟩
        else
          ⟨{ st3 with loading := false }, 1, none⟩
    | .error e =>
        ⟨{ continueResolveErr e st2 with loading := false }, 1, none⟩

/-- Outcome of one `completeAssessment` call: the final state, how many
`copilotProcessText` calls were issued and the full text sent to it. -/
structure CompleteOutcome where
  state : State
  processTextCalls : Nat
  sentFullText : String
deriving DecidableEq, Repr

/-- `completeAssessment`: join the context snapshot (or the current
context) with spaces, call `copilotProcessText`, and on success store the
result and move to the results phase; on failure record the error and
clear the auto-completing indicator. -/
def completeAssessment (st : State) (ctxSnap : Option (List String))
    (svc : Except String TriageResult) : CompleteOutcome :=
  let fullText := String.intercalate " " (ctxSnap.getD st.conversationContext)
  let st1 : State := { st with loading := true, error := "" }
  match svc with
  | .ok triage =>
      ⟨{ st1 with result := some triage, phase := .results, loading := false },
        1, fullText⟩
  | .error e =>
      ⟨{ st1 with error := e, autoCompleting := false, loading := false },
        1, fullText⟩

/-- `startRecording`, success branch: fresh chunk buffer, recording state,
zeroed clock and a live 1-second interval timer. -/
def startRecordingOk (st : State) : State :=
  { st with chunks := [], pendingStop := false,
            recordingState := .recording, recordingTime := 0,
            timerActive := true }

/-- `startRecording`, permission-denied branch: only the error banner is
set. -/
def startRecordingDenied (st : State) : State :=
  { st with error := "Microphone access failed. Check browser permissions." }

/-- One tick of the recording interval timer. -/
def timerTick (st : State) : State :=
  if st.timerActive = true then { st with recordingTime := st.recordingTime + 1 } else st

/-- The recorder `ondataavailable` callback: push non-empty data onto the
chunk buffer. -/
def dataAvailable (c : String) (st : State) : State :=
  if c ≠ "" then { st with chunks := st.chunks ++ [c] } else st

/-- `stopRecording`: when recording, request `recorder.stop()` (its
`onstop` callback is now pending) and clear the interval timer; otherwise
a no-op. -/
def stopRecording (st : State) : State :=
  if st.recordingState = .recording then
    { st with pendingStop := true, timerActive := false }
  else st

/-- The recorder `onstop` callback installed by `startRecording`: build
the blob from the current chunk buffer, set the recorded state and
release the stream. -/
def onstopFires (st : State) : State :=
  { st with audioBlob := some st.chunks, recordingState := .recorded,
            pendingStop := false }

/-- `cancelRecording`: stop a live recording first, then return to idle
with the blob, clock and chunk buffer cleared. -/
def cancelRecording (st : State) : State :=
  let st1 := if st.recordingState = .recording then stopRecording st else st
  { st1 with recordingState := .idle, audioBlob := none,
             recordingTime := 0, chunks := [] }

/-- Outcome of one `sendAudioMessage` call: the final state and how many
`copilotProcessAudio` calls were issued. -/
structure AudioOutcome where
  state : State
  processAudioCalls : Nat
deriving DecidableEq, Repr

/-- `sendAudioMessage`: rejected when no blob is ready; otherwise call
`copilotProcessAudio`.  On success a transcript message is appended only
when the transcript is non-empty, the result is stored and the phase
moves to results with the capture state cleared; on failure the state
returns to recorded. -/
def sendAudioMessage (st : State) (svc : Except String TriageResult) : AudioOutcome :=
  match st.audioBlob with
  | none => ⟨st, 0⟩
  | some _ =>
      let st1 : State :=
        { st with error := "", loading := true,
                  recordingState := .processing }
      match svc with
      | .ok triage =>
          let st2 : State :=
            if triage.transcript ≠ "" then
              { st1 with messages := st1.messages ++ [⟨.user, triage.transcript, true⟩] }
            else st1
          ⟨{ st2 with result := some triage, phase := .results,
                      audioBlob := none, recordingTime := 0,
                      recordingState := .idle, chunks := [], loading := false }, 1⟩
      | .error e =>
          ⟨{ st1 with error := e, recordingState := .recorded, loading := false }, 1⟩

/-- `resetAssist`: stop current TTS audio, return every dialogue field to
its initial value and cancel the recording session. -/
def resetAssist (st : State) : State :=
  cancelRecording
    { st with ttsPlaying := false,
              phase := .language_select, messages := [],
              conversationContext := [], inputText := "",
              result := none, error := "", autoCompleting := false }

end P0

/-! ## P2: the triage page (`src/unnamed/part_002`) -/

namespace P2

/-- Message roles of the triage page (`Msg.role`). -/
inductive Role
  | patient
  | ai
  | staff
deriving DecidableEq, Repr

/-- One chat message. -/
structure Msg where
  role : Role
  content : String
deriving DecidableEq, Repr

/-- The page phases. -/
inductive Phase
  | language
  | conversation
  | results
deriving DecidableEq, Repr

/-- Recording states (`RecState`). -/
inductive RecState
  | idle
  | recording
  | processing
deriving DecidableEq, Repr

/-- The page state: the React hooks plus the mutable refs and ambient
resources.  `mrActive` records that `mrRef.current` is non-null,
`timerActive` that `timerRef` holds a live interval and `ttsPlaying`
that a `playTTS` audio object is currently playing. -/
structure State where
  phase : Phase
  msgs : List Msg
  input : String
  staffNote : String
  staffNotes : String
  loading : Bool
  triageResult : Option TriageResult
  error : String
  recState : RecState
  recTime : Nat
  timerActive : Bool
  mrActive : Bool
  ttsPlaying : Bool
deriving DecidableEq, Repr

/-- `selectLang`: seed the message list with the greeting of the chosen
language, enter the conversation phase and play the greeting aloud. -/
def selectLang (st : State) (greeting : String) : State :=
  { st with msgs := [⟨.ai, greeting⟩], phase := .conversation,
            ttsPlaying := true }

/-- `buildHistory`: drop staff messages and tag each remaining message
with its speaker (`PATIENT` for patient messages, `YOU` otherwise),
joined by newlines. -/
def buildHistory (msgs : List Msg) : String :=
  String.intercalate "\n"
    ((msgs.filter (fun m => m.role ≠ .staff)).map
      (fun m => (if m.role = .patient then "PATIENT" else "YOU") ++ ": " ++ m.content))

/-- Resolution of a successful `triageContinue` call: `setMsgs` with the
snapshot taken before the call plus the AI reply — the current message
list is overwritten, not extended. -/
def sendResolveOk (snapshot : List Msg) (resp : ContinueResp) (st : State) : State :=
  { st with msgs := snapshot ++ [⟨.ai, resp.response⟩] }

/-- Outcome of one `send` call: the final state, how many
`triageContinue` calls were issued, and — when `completeAssessment` was
scheduled — the timeout delay (ms) and the message snapshot passed to
it. -/
structure SendOutcome where
  state : State
  continueCalls : Nat
  scheduled : Option (Nat × List Msg)
deriving DecidableEq, Repr

/-- `send`: rejected only when the trimmed text is empty (there is no
busy-flag check in the function itself); otherwise the patient message is
appended and `triageContinue` is called.  On success the AI reply is
appended and spoken, and `completeAssessment` is scheduled after 1500 ms
exactly when `should_auto_complete` is set; on failure only the error
banner is set. -/
def send (st : State) (text : String) (svc : Except String ContinueResp) : SendOutcome :=
  if jsTrim text = "" then ⟨st, 0, none⟩
  else
    let newMsgs := st.msgs ++ [⟨.patient, text⟩]
    let st1 : State :=
      { st with msgs := newMsgs, input := "",
                loading := true, error := "" }
    match svc with
    | .ok resp =>
        let st2 : State :=
          { sendResolveOk newMsgs resp st1 with ttsPlaying := true, loading := false }
        if resp.should_auto_complete = true then
          ⟨st2, 1, some (1500, newMsgs ++ [⟨.ai, resp.response⟩])⟩
        else ⟨st2, 1, none⟩
    | .error e => ⟨{ st1 with error := e, loading := false }, 1, none⟩

/-- `addStaff`: append the trimmed note to the newline-separated
`staffNotes` accumulator and to the message list as a staff message. -/
def addStaff (st : State) : State :=
  if jsTrim st.staffNote = "" then st
  else
    let note := jsTrim st.staffNote
    { st with
      staffNotes := if st.staffNotes = "" then note else st.staffNotes ++ "\n" ++ note,
      msgs := st.msgs ++ [⟨.staff, note⟩], staffNote := "" }

/-- The text block `completeAssessment` builds: every message, staff
messages included, tagged `STAFF` / `PATIENT` / `ASSISTANT` and joined by
newlines. -/
def completeText (msgs : List Msg) : String :=
  String.intercalate "\n" (msgs.map (fun x =>
    (match x.role with
     | .staff => "STAFF: "
     | .patient => "PATIENT: "
     | .ai => "ASSISTANT: ") ++ x.content))

/-- Outcome of one `completeAssessment` call: the final state, how many
`triageProcessText` calls were issued, the text block and the staff-notes
string sent to it. -/
structure CompleteOutcome where
  state : State
  processTextCalls : Nat
  sentFullText : String
  sentStaffNotes : String
deriving DecidableEq, Repr

/-- `completeAssessment`: build the tagged text block from the message
snapshot (or the current messages), call `triageProcessText`, and on
success store the result and move to the results phase. -/
def completeAssessment (st : State) (m : Option (List Msg))
    (svc : Except String TriageResult) : CompleteOutcome :=
  let text := completeText (m.getD st.msgs)
  let st1 : State := { st with loading := true, error := "" }
  match svc with
  | .ok res =>
      ⟨{ st1 with triageResult := some res, phase := .results, loading := false },
        1, text, st.staffNotes⟩
  | .error e =>
      ⟨{ st1 with error := e, loading := false }, 1, text, st.staffNotes⟩

/-- `startRec`, success branch: a recorder is created and started with a
live interval timer. -/
def startRecOk (st : State) : State :=
  { st with mrActive := true, recState := .recording, recTime := 0,
            timerActive := true }

/-- Outcome of one `stopRec` call: the final state and how many
`triageProcessAudio` calls were issued. -/
structure AudioOutcome where
  state : State
  processAudioCalls : Nat
deriving DecidableEq, Repr

/-- `stopRec`: rejected when no recorder exists; otherwise finalize the
blob (clearing the timer), call `triageProcessAudio`, append a transcript
message only when the transcript is non-empty, store the result and move
to the results phase; the recording state returns to idle either way. -/
def stopRec (st : State) (svc : Except String TriageResult) : AudioOutcome :=
  if st.mrActive = false then ⟨st, 0⟩
  else
    let st1 : State :=
      { st with recState := .processing, timerActive := false }
    match svc with
    | .ok res =>
        let st2 : State :=
          if res.transcript ≠ "" then
            { st1 with msgs := st1.msgs ++ [⟨.patient, res.transcript⟩] }
          else st1
        ⟨{ st2 with triageResult := some res, phase := .results,
                    recState := .idle }, 1⟩
    | .error e => ⟨{ st1 with error := e, recState := .idle }, 1⟩

/-- `reset`: return the dialogue fields to their initial values.  The
source resets only `phase`, `msgs`, `staffNotes`, `staffNote`,
`triageResult`, `error` and `input`. -/
def reset (st : State) : State :=
  { st with phase := .language, msgs := [], staffNotes := "",
            staffNote := "", triageResult := none, error := "", input := "" }

end P2

/-! ## Spec-side definitions

The spec states the reasoning-service history contract in its own words:
render each Turn with an explicit speaker tag and exclude the
system-level Turns.  The following two recursions follow those words
directly; the claim about `buildHistory` is settled by comparing the
source-derived definitions against them. -/

/-- The history lines as the spec words them, for the doctor-assist
message type: skip system messages, tag patient speech with
`PATIENT: ` and assistant speech with `YOU: `. -/
def specLines0 : List P0.Msg → List String
  | [] => []
  | m :: rest =>
    match m.role with
    | .system => specLines0 rest
    | .user => ("PATIENT: " ++ m.content) :: specLines0 rest
    | .assistant => ("YOU: " ++ m.content) :: specLines0 rest

/-- The history lines as the spec words them, for the triage-page
message type: skip staff messages, tag patient speech with `PATIENT: `
and AI speech with `YOU: `. -/
def specLines2 : List P2.Msg → List String
  | [] => []
  | m :: rest =>
    match m.role with
    | .staff => specLines2 rest
    | .patient => ("PATIENT: " ++ m.content) :: specLines2 rest
    | .ai => ("YOU: " ++ m.content) :: specLines2 rest

/-! ## Concrete fixtures -/

/-- A sample triage result with no transcript. -/
def sampleTriage : TriageResult :=
  { risk_level := .moderate,
    extracted_symptoms := ["headache"],
    triage_recommendation :=
      { urgency_level := "routine",
        summary_of_findings := "Tension headache likely.",
        recommended_actions_for_chw := ["Give fluids", "Monitor pain"] },
    transcript := "" }

/-- A follow-up question response with neither completion signal. -/
def sampleResp : ContinueResp := ⟨"How long has the pain lasted?", false, false⟩

/-- A response with the `should_auto_complete` signal set. -/
def autoResp : ContinueResp := ⟨"Thank you, I have enough information.", true, false⟩

/-- A response with only the `conversation_complete` signal set. -/
def ccOnlyResp : ContinueResp := ⟨"We are done here.", false, true⟩

/-- A late follow-up question, used for the stale-response scenario. -/
def staleResp : ContinueResp := ⟨"Do you also have fever?", false, false⟩

/-- Initial doctor-assist page state. -/
def P0.init : P0.State :=
  { phase := .language_select, messages := [], conversationContext := [],
    inputText := "", loading := false, autoCompleting := false, error := "",
    result := none, greeting := "", recordingState := .idle, audioBlob := none,
    recordingTime := 0, timerActive := false, chunks := [], pendingStop := false,
    ttsPlaying := false }

/-- Doctor-assist state just after `beginConversation` in English. -/
def P0.conv : P0.State :=
  P0.beginConversation P0.init "Hello! How are you feeling today?"

/-- Doctor-assist conversation state with a finished recording ready to
send. -/
def P0.audioReady : P0.State := { P0.conv with audioBlob := some ["chunk0"] }

/-- Doctor-assist state recording live: one timer tick elapsed and one
data chunk buffered. -/
def P0.recFixture : P0.State :=
  P0.dataAvailable "chunk0" (P0.timerTick (P0.startRecordingOk P0.conv))

/-- Doctor-assist conversation state holding one patient turn, about to
be reset while a service call is in flight. -/
def P0.preReset : P0.State :=
  { P0.conv with
      messages := P0.conv.messages ++ [⟨.user, "My head dey pain me", false⟩],
      conversationContext := ["My head dey pain me"], loading := true }

/-- Initial triage page state. -/
def P2.init : P2.State :=
  { phase := .language, msgs := [], input := "", staffNote := "",
    staffNotes := "", loading := false, triageResult := none, error := "",
    recState := .idle, recTime := 0, timerActive := false, mrActive := false,
    ttsPlaying := false }

/-- Triage-page state just after `selectLang` with the Pidgin greeting. -/
def P2.conv : P2.State := P2.selectLang P2.init "How far! Wetin dey do you today?"

/-- Triage-page conversation state with a submission already in flight
(the busy flag set). -/
def P2.busy : P2.State := { P2.conv with loading := true }

/-- Triage-page results state with synthesized speech still playing. -/
def P2.resultsPlaying : P2.State :=
  { P2.conv with phase := .results, triageResult := some sampleTriage,
                 ttsPlaying := true }

/-- The message snapshot captured by a `send` call that is still in
flight when the session is reset. -/
def P2.staleSnap : List P2.Msg :=
  P2.conv.msgs ++ [⟨.patient, "My belle dey pain"⟩]

/-- Triage-page state about to be reset while that call is in flight. -/
def P2.preReset : P2.State := { P2.conv with msgs := P2.staleSnap, loading := true }

/-- A two-message conversation: the greeting plus one patient answer. -/
def P2.assistantMsgs : List P2.Msg :=
  [⟨.ai, "How far! Wetin dey do you today?"⟩, ⟨.patient, "Belle dey pain me"⟩]

/-! ## Theorems -/

lemma specLines0_eq (msgs : List P0.Msg) :
    (msgs.filter (fun m => m.role ≠ P0.Role.system)).map
      (fun m => (if m.role = P0.Role.user then "PATIENT" else "YOU") ++ ": " ++ m.content)
      = specLines0 msgs := by
  induction msgs with
  | nil => rfl
  | cons m rest ih =>
      rcases m with ⟨r, c, a⟩
      cases r
      · exact congrArg (List.cons ("PATIENT: " ++ c)) ih
      · exact congrArg (List.cons ("YOU: " ++ c)) ih
      · exact ih

lemma specLines2_eq (msgs : List P2.Msg) :
    (msgs.filter (fun m => m.role ≠ P2.Role.staff)).map
      (fun m => (if m.role = P2.Role.patient then "PATIENT" else "YOU") ++ ": " ++ m.content)
      = specLines2 msgs := by
  induction msgs with
  | nil => rfl
  | cons m rest ih =>
      rcases m with ⟨r, c⟩
      cases r
      · exact congrArg (List.cons ("PATIENT: " ++ c)) ih
      · exact congrArg (List.cons ("YOU: " ++ c)) ih
      · exact ih

/-- C5: in both controllers, the conversation-history string sent to the
continue-conversation operation renders each included message with an
explicit speaker tag (`PATIENT: ` for patient speech, `YOU: ` for
assistant speech) and excludes every system-level message (role
`system` on the doctor-assist page, role `staff` on the triage page),
exactly as the spec-side recursions `specLines0` / `specLines2` state. -/
theorem buildHistory_matches_spec :
    (∀ msgs : List P0.Msg,
        P0.buildHistory msgs = String.intercalate "\n" (specLines0 msgs)) ∧
    (∀ msgs : List P2.Msg,
        P2.buildHistory msgs = String.intercalate "\n" (specLines2 msgs)) := by
  constructor
  · intro msgs
    unfold P0.buildHistory
    rw [specLines0_eq]
  · intro msgs
    unfold P2.buildHistory
    rw [specLines2_eq]

/-- C1 counterexample: the triage-page `send` has no busy-flag check.
Called while a submission is already in flight (`loading = true`) with
non-empty text, it still issues a network call and lengthens the turn
history by two, instead of being rejected with no state change. -/
theorem send_busy_accepted_cx :
    P2.busy.loading = true ∧
    (P2.send P2.busy "Belle dey pain me" (Except.ok sampleResp)).continueCalls = 1 ∧
    (P2.send P2.busy "Belle dey pain me" (Except.ok sampleResp)).state.msgs.length
        = P2.busy.msgs.length + 2 := by
  refine ⟨rfl, ?_, ?_⟩ <;> rfl

/-- C1 amended: an empty trimmed submission is rejected with no state
change and no network call in both controllers; the busy-flag
(`loading`) rejection additionally holds in the doctor-assist
`handleSendMessage`, but not in the triage-page `send`, where the guard
lives only in the UI callers. -/
theorem submit_reject_guard :
    (∀ (st : P0.State) (prefill : Option String) (svc : Except String ContinueResp),
        jsTrim (prefill.getD st.inputText) = "" ∨ st.loading = true →
        P0.handleSendMessage st prefill svc = ⟨st, 0, none⟩) ∧
    (∀ (st : P2.State) (text : String) (svc : Except String ContinueResp),
        jsTrim text = "" →
        P2.send st text svc = ⟨st, 0, none⟩) := by
  constructor
  · intro st prefill svc h
    unfold P0.handleSendMessage
    rw [if_pos h]
  · intro st text svc h
    unfold P2.send
    rw [if_pos h]

/-- C1 witness: a busy doctor-assist state rejects a concrete
submission unchanged, and a blank triage-page submission is likewise
rejected. -/
theorem submit_reject_guard_witness :
    P0.handleSendMessage { P0.conv with loading := true } none (Except.ok sampleResp)
        = ⟨{ P0.conv with loading := true }, 0, none⟩ ∧
    P2.send P2.conv "   " (Except.ok sampleResp) = ⟨P2.conv, 0, none⟩ :=
  ⟨submit_reject_guard.1 { P0.conv with loading := true } none (Except.ok sampleResp)
      (Or.inr rfl),
   submit_reject_guard.2 P2.conv "   " (Except.ok sampleResp) (by decide)⟩

/-- C2 counterexample: the triage-page `completeAssessment` builds its
text block from every message, assistant turns included — removing the
assistant turn changes the block, so the block is not a function of the
non-assistant turns alone. -/
theorem completeText_includes_assistant_cx :
    (P2.completeAssessment { P2.conv with msgs := P2.assistantMsgs } none
        (Except.ok sampleTriage)).sentFullText = P2.completeText P2.assistantMsgs ∧
    P2.completeText P2.assistantMsgs
        = "ASSISTANT: How far! Wetin dey do you today?\nPATIENT: Belle dey pain me" ∧
    P2.completeText P2.assistantMsgs
        ≠ P2.completeText (P2.assistantMsgs.filter (fun m => m.role ≠ P2.Role.ai)) :=
  ⟨rfl, rfl, by decide⟩

/-- C2 amended: on the doctor-assist page `completeAssessment` sends the
accumulated patient texts joined with spaces (assistant turns never
included; staff notes do not exist there), while the triage-page
`completeAssessment` sends every turn — assistant turns included — each
tagged with its speaker, alongside the separate staff-notes string; on
success both store the returned result and transition to the results
phase with exactly one processText call. -/
theorem completeAssessment_text :
    (∀ (st : P0.State) (t : TriageResult),
        (P0.completeAssessment st none (Except.ok t)).sentFullText
            = String.intercalate " " st.conversationContext ∧
        (P0.completeAssessment st none (Except.ok t)).state.phase = P0.Phase.results ∧
        (P0.completeAssessment st none (Except.ok t)).state.result = some t ∧
        (P0.completeAssessment st none (Except.ok t)).processTextCalls = 1) ∧
    (∀ (st : P2.State) (t : TriageResult),
        (P2.completeAssessment st none (Except.ok t)).sentFullText
            = P2.completeText st.msgs ∧
        (P2.completeAssessment st none (Except.ok t)).sentStaffNotes = st.staffNotes ∧
        (P2.completeAssessment st none (Except.ok t)).state.phase = P2.Phase.results ∧
        (P2.completeAssessment st none (Except.ok t)).state.triageResult = some t ∧
        (P2.completeAssessment st none (Except.ok t)).processTextCalls = 1) :=
  ⟨fun _ _ => ⟨rfl, rfl, rfl, rfl⟩, fun _ _ => ⟨rfl, rfl, rfl, rfl, rfl⟩⟩

/-- Iterated accepted doctor-assist submissions, each resolved
successfully with the paired response. -/
def P0.sendFold (st : P0.State) (l : List (String × ContinueResp)) : P0.State :=
  l.foldl (fun s p => (P0.handleSendMessage s (some p.1) (Except.ok p.2)).state) st

/-- Iterated triage-page submissions, each resolved successfully with
the paired response. -/
def P2.sendFold (st : P2.State) (l : List (String × ContinueResp)) : P2.State :=
  l.foldl (fun s p => (P2.send s p.1 (Except.ok p.2)).state) st

lemma P0.handleSend_ok_two (st : P0.State) (t : String) (r : ContinueResp)
    (h1 : jsTrim t ≠ "") (h2 : st.loading = false) :
    (P0.handleSendMessage st (some t) (Except.ok r)).state.messages.length
        = st.messages.length + 2 ∧
    (P0.handleSendMessage st (some t) (Except.ok r)).state.loading = false := by
  unfold P0.handleSendMessage
  rw [if_neg (by simp [h1, h2])]
  cases hb : (r.should_auto_complete || r.conversation_complete) <;>
    simp [P0.continueResolveOk, hb]

lemma P2.send_ok_two (st : P2.State) (t : String) (r : ContinueResp)
    (h1 : jsTrim t ≠ "") :
    (P2.send st t (Except.ok r)).state.msgs.length = st.msgs.length + 2 := by
  unfold P2.send
  rw [if_neg h1]
  cases hb : r.should_auto_complete <;> simp [P2.sendResolveOk, hb]

/-- C3: a sequence of accepted, successful text submissions lengthens
the turn history by exactly two per call (one patient turn plus one
assistant turn) in both controllers. -/
theorem turn_history_two_per_send :
    (∀ (st : P0.State) (l : List (String × ContinueResp)),
        st.loading = false → (∀ p ∈ l, jsTrim p.1 ≠ "") →
        (P0.sendFold st l).messages.length = st.messages.length + 2 * l.length) ∧
    (∀ (st : P2.State) (l : List (String × ContinueResp)),
        (∀ p ∈ l, jsTrim p.1 ≠ "") →
        (P2.sendFold st l).msgs.length = st.msgs.length + 2 * l.length) := by
  constructor
  · intro st l
    induction l generalizing st with
    | nil => intro _ _; simp [P0.sendFold]
    | cons p rest ih =>
        intro hload hall
        have hp : jsTrim p.1 ≠ "" := hall p (List.mem_cons_self p rest)
        have hstep := P0.handleSend_ok_two st p.1 p.2 hp hload
        have hrest := ih (P0.handleSendMessage st (some p.1) (Except.ok p.2)).state
          hstep.2 (fun q hq => hall q (List.mem_cons_of_mem p hq))
        show (P0.sendFold (P0.handleSendMessage st (some p.1) (Except.ok p.2)).state
          rest).messages.length = st.messages.length + 2 * (p :: rest).length
        rw [hrest, hstep.1]
        simp [Nat.mul_add, Nat.mul_succ]
        omega
  · intro st l
    induction l generalizing st with
    | nil => intro _; simp [P2.sendFold]
    | cons p rest ih =>
        intro hall
        have hp : jsTrim p.1 ≠ "" := hall p (List.mem_cons_self p rest)
        have hstep := P2.send_ok_two st p.1 p.2 hp
        have hrest := ih (P2.send st p.1 (Except.ok p.2)).state
          (fun q hq => hall q (List.mem_cons_of_mem p hq))
        show (P2.sendFold (P2.send st p.1 (Except.ok p.2)).state rest).msgs.length
          = st.msgs.length + 2 * (p :: rest).length
        rw [hrest, hstep]
        simp [Nat.mul_add, Nat.mul_succ]
        omega

/-- C3 witness: two concrete accepted submissions on each controller
lengthen the history from one message (the greeting) to five. -/
theorem turn_history_two_per_send_witness :
    (P0.sendFold P0.conv
        [("My head dey pain me", sampleResp), ("Since yesterday", sampleResp)]
      ).messages.length = P0.conv.messages.length + 2 * 2 ∧
    (P2.sendFold P2.conv
        [("Belle dey pain me", sampleResp), ("Since yesterday", sampleResp)]
      ).msgs.length = P2.conv.msgs.length + 2 * 2 :=
  ⟨turn_history_two_per_send.1 P0.conv
      [("My head dey pain me", sampleResp), ("Since yesterday", sampleResp)]
      rfl (by decide),
   turn_history_two_per_send.2 P2.conv
      [("Belle dey pain me", sampleResp), ("Since yesterday", sampleResp)]
      (by decide)⟩

/-- C4 counterexample: on the triage page a response carrying only the
`conversation_complete` signal schedules nothing (the code reads only
`should_auto_complete`), and when a completion is scheduled its fixed
delay is 1500 ms, not 1300 ms. -/
theorem auto_complete_signal_cx :
    ccOnlyResp.conversation_complete = true ∧
    (P2.send P2.conv "I dey feel weak" (Except.ok ccOnlyResp)).scheduled = none ∧
    (P2.send P2.conv "I dey feel weak" (Except.ok autoResp)).scheduled ≠ none ∧
    (P2.send P2.conv "I dey feel weak" (Except.ok autoResp)).scheduled.map Prod.fst
        = some 1500 := by
  refine ⟨rfl, rfl, by decide, rfl⟩

/-- C4 amended: on the doctor-assist page a response carrying either
completion signal sets the auto-completing indicator and schedules
exactly one final-assessment call after a fixed 1300 ms delay, and the
scheduled `completeAssessment` on success issues one processText call
and moves the phase to results; on the triage page only
`should_auto_complete` triggers the completion, after a fixed 1500 ms
delay and with no auto-completing indicator. -/
theorem auto_complete_flow :
    (∀ (st : P0.State) (t : String) (r : ContinueResp),
        st.loading = false → jsTrim t ≠ "" →
        (r.should_auto_complete || r.conversation_complete) = true →
        (P0.handleSendMessage st (some t) (Except.ok r)).scheduledDelayMs = some 1300 ∧
        (P0.handleSendMessage st (some t) (Except.ok r)).state.autoCompleting = true ∧
        (P0.handleSendMessage st (some t) (Except.ok r)).continueCalls = 1) ∧
    (∀ (st : P0.State) (ctx : Option (List String)) (tr : TriageResult),
        (P0.completeAssessment st ctx (Except.ok tr)).state.phase = P0.Phase.results ∧
        (P0.completeAssessment st ctx (Except.ok tr)).processTextCalls = 1) ∧
    (∀ (st : P2.State) (t : String) (r : ContinueResp),
        jsTrim t ≠ "" → r.should_auto_complete = true →
        (P2.send st t (Except.ok r)).scheduled
            = some (1500, st.msgs ++ [⟨P2.Role.patient, t⟩, ⟨P2.Role.ai, r.response⟩])) := by
  refine ⟨?_, fun st ctx tr => ⟨rfl, rfl⟩, ?_⟩
  · intro st t r hload ht hr
    unfold P0.handleSendMessage
    rw [if_neg (by simp [ht, hload])]
    simp [hr]
  · intro st t r ht hr
    unfold P2.send
    rw [if_neg ht]
    simp [P2.sendResolveOk, hr]

/-- C4 witness: a concrete auto-completing response at the seeded
conversation states. -/
theorem auto_complete_flow_witness :
    (P0.handleSendMessage P0.conv (some "Chest pain") (Except.ok autoResp)
        ).scheduledDelayMs = some 1300 ∧
    (P2.send P2.conv "Chest pain" (Except.ok autoResp)).scheduled
        = some (1500, P2.conv.msgs
            ++ [⟨P2.Role.patient, "Chest pain"⟩, ⟨P2.Role.ai, autoResp.response⟩]) :=
  ⟨(auto_complete_flow.1 P0.conv "Chest pain" autoResp rfl (by decide) rfl).1,
   auto_complete_flow.2.2 P2.conv "Chest pain" autoResp (by decide) rfl⟩

/-- C6 counterexample: when the triage-page `send` fails, the final
message list is exactly the prior list plus the patient message — no
system-level turn describing the failure is appended; the failure is
surfaced only through the inline error banner. -/
theorem send_failure_no_system_turn_cx :
    (P2.send P2.conv "Belle dey pain me" (Except.error "Network Error")).state.msgs
        = [⟨P2.Role.ai, "How far! Wetin dey do you today?"⟩,
           ⟨P2.Role.patient, "Belle dey pain me"⟩] ∧
    (P2.send P2.conv "Belle dey pain me" (Except.error "Network Error")).state.error
        = "Network Error" ∧
    (P2.send P2.conv "Belle dey pain me" (Except.error "Network Error")).state.phase
        = P2.Phase.conversation :=
  ⟨rfl, rfl, rfl⟩

/-- C6 amended: on a failed text submission both controllers leave the
phase unchanged and stay usable with the error recorded; the
doctor-assist page additionally appends a fixed system-level failure
message after the patient turn, while the triage page appends only the
patient turn and surfaces the failure through the inline error banner
alone. -/
theorem send_failure_recoverable :
    (∀ (st : P0.State) (t e : String),
        st.loading = false → jsTrim t ≠ "" →
        (P0.handleSendMessage st (some t) (Except.error e)).state.messages
            = st.messages ++ [⟨P0.Role.user, jsTrim t, false⟩, P0.sysFailMsg] ∧
        (P0.handleSendMessage st (some t) (Except.error e)).state.phase = st.phase ∧
        (P0.handleSendMessage st (some t) (Except.error e)).state.error = e ∧
        (P0.handleSendMessage st (some t) (Except.error e)).state.loading = false) ∧
    (∀ (st : P2.State) (t e : String),
        jsTrim t ≠ "" →
        (P2.send st t (Except.error e)).state.msgs
            = st.msgs ++ [⟨P2.Role.patient, t⟩] ∧
        (P2.send st t (Except.error e)).state.phase = st.phase ∧
        (P2.send st t (Except.error e)).state.error = e ∧
        (P2.send st t (Except.error e)).state.loading = false) := by
  constructor
  · intro st t e hload ht
    unfold P0.handleSendMessage
    rw [if_neg (by simp [ht, hload])]
    simp [P0.continueResolveErr]
  · intro st t e ht
    unfold P2.send
    rw [if_neg ht]
    simp

/-- C6 witness: a concrete failed submission on each controller. -/
theorem send_failure_recoverable_witness :
    (P0.handleSendMessage P0.conv (some "My head dey pain me")
        (Except.error "Service down")).state.messages
        = P0.conv.messages
            ++ [⟨P0.Role.user, jsTrim "My head dey pain me", false⟩, P0.sysFailMsg] ∧
    (P2.send P2.conv "Belle dey pain me" (Except.error "Service down")).state.phase
        = P2.conv.phase :=
  ⟨(send_failure_recoverable.1 P0.conv "My head dey pain me" "Service down"
      rfl (by decide)).1,
   (send_failure_recoverable.2 P2.conv "Belle dey pain me" "Service down"
      (by decide)).2.1⟩

/-- C7 counterexample: the triage-page `reset` does return the phase to
the language screen and empty the history, but it leaves synthesized
speech playing — in-flight TTS playback is not cancelled. -/
theorem reset_keeps_tts_cx :
    P2.resultsPlaying.ttsPlaying = true ∧
    (P2.reset P2.resultsPlaying).phase = P2.Phase.language ∧
    (P2.reset P2.resultsPlaying).msgs = [] ∧
    (P2.reset P2.resultsPlaying).ttsPlaying = true :=
  ⟨rfl, rfl, rfl, rfl⟩

/-- C7 amended: from every prior state, reset returns the phase to the
language-select screen and empties the turn history in both controllers;
the doctor-assist `resetAssist` additionally stops current TTS playback
and discards the recording session (idle state, cleared blob, clock,
chunk buffer and timer), while the triage-page `reset` leaves TTS
playback and the whole capture state untouched. -/
theorem reset_state :
    (∀ st : P0.State,
        (st.timerActive = true → st.recordingState = P0.RecState.recording) →
        (P0.resetAssist st).phase = P0.Phase.language_select ∧
        (P0.resetAssist st).messages = [] ∧
        (P0.resetAssist st).conversationContext = [] ∧
        (P0.resetAssist st).result = none ∧
        (P0.resetAssist st).autoCompleting = false ∧
        (P0.resetAssist st).ttsPlaying = false ∧
        (P0.resetAssist st).recordingState = P0.RecState.idle ∧
        (P0.resetAssist st).audioBlob = none ∧
        (P0.resetAssist st).recordingTime = 0 ∧
        (P0.resetAssist st).timerActive = false) ∧
    (∀ st : P2.State,
        (P2.reset st).phase = P2.Phase.language ∧
        (P2.reset st).msgs = [] ∧
        (P2.reset st).triageResult = none ∧
        (P2.reset st).staffNotes = "" ∧
        (P2.reset st).ttsPlaying = st.ttsPlaying ∧
        (P2.reset st).recState = st.recState ∧
        (P2.reset st).timerActive = st.timerActive) := by
  constructor
  · intro st htimer
    by_cases hr : st.recordingState = P0.RecState.recording
    · simp [P0.resetAssist, P0.cancelRecording, P0.stopRecording, hr]
    · have ht : st.timerActive = false := by
        cases hta : st.timerActive
        · rfl
        · exact absurd (htimer hta) hr
      simp [P0.resetAssist, P0.cancelRecording, P0.stopRecording, hr, ht]
  · intro st
    exact ⟨rfl, rfl, rfl, rfl, rfl, rfl, rfl⟩

/-- C7 witness: resetting the concrete results-phase state on each
controller. -/
theorem reset_state_witness :
    (P0.resetAssist P0.audioReady).phase = P0.Phase.language_select ∧
    (P0.resetAssist P0.audioReady).ttsPlaying = false ∧
    (P2.reset P2.resultsPlaying).msgs = [] :=
  ⟨(reset_state.1 P0.audioReady (by decide)).1,
   (reset_state.1 P0.audioReady (by decide)).2.2.2.2.2.1,
   (reset_state.2 P2.resultsPlaying).2.1⟩

/-- C8: neither controller checks a session epoch before applying a
continue-conversation response.  After `resetAssist` the doctor-assist
resolution appends the stale assistant turn to the freshly emptied
session, and after `reset` the triage-page resolution overwrites the new
empty message list with the pre-reset snapshot plus the stale reply —
the stale response is applied, not discarded. -/
theorem stale_response_applied :
    (P0.resetAssist P0.preReset).messages = [] ∧
    (P0.continueResolveOk staleResp (P0.resetAssist P0.preReset)).messages
        = [⟨P0.Role.assistant, "Do you also have fever?", false⟩] ∧
    (P2.reset P2.preReset).msgs = [] ∧
    (P2.sendResolveOk P2.staleSnap staleResp (P2.reset P2.preReset)).msgs
        = P2.staleSnap ++ [⟨P2.Role.ai, "Do you also have fever?"⟩] ∧
    P2.staleSnap ≠ [] :=
  ⟨rfl, by decide, rfl, rfl, by decide⟩

/-- C9: discarding a live recording leaves the React state idle with no
blob and no further timer ticks, and a repeated discard is a no-op; but
the recorder `onstop` callback queued by the discard then fires and puts
the capture state back to recorded with a non-null (empty) blob — the
discard does not durably end in idle with a null blob. -/
theorem discard_onstop_resurrects :
    (P0.cancelRecording P0.recFixture).recordingState = P0.RecState.idle ∧
    (P0.cancelRecording P0.recFixture).audioBlob = none ∧
    (P0.cancelRecording P0.recFixture).timerActive = false ∧
    P0.timerTick (P0.cancelRecording P0.recFixture) = P0.cancelRecording P0.recFixture ∧
    P0.cancelRecording (P0.cancelRecording P0.recFixture)
        = P0.cancelRecording P0.recFixture ∧
    (P0.cancelRecording P0.recFixture).pendingStop = true ∧
    (P0.onstopFires (P0.cancelRecording P0.recFixture)).recordingState
        = P0.RecState.recorded ∧
    (P0.onstopFires (P0.cancelRecording P0.recFixture)).audioBlob = some [] :=
  ⟨rfl, rfl, rfl, by decide, by decide, rfl, rfl, rfl⟩

/-- C10: when the audio-path call succeeds with an empty (or missing)
transcript, both controllers store the result and move to the results
phase without appending any patient turn, so the results phase is
reachable with a history holding no patient-authored turn. -/
theorem audio_empty_transcript_results :
    (∀ (st : P0.State) (b : List String) (tr : TriageResult),
        st.audioBlob = some b → tr.transcript = "" →
        (P0.sendAudioMessage st (Except.ok tr)).state.messages = st.messages ∧
        (P0.sendAudioMessage st (Except.ok tr)).state.phase = P0.Phase.results ∧
        (P0.sendAudioMessage st (Except.ok tr)).state.result = some tr ∧
        (P0.sendAudioMessage st (Except.ok tr)).processAudioCalls = 1) ∧
    (∀ (st : P2.State) (tr : TriageResult),
        st.mrActive = true → tr.transcript = "" →
        (P2.stopRec st (Except.ok tr)).state.msgs = st.msgs ∧
        (P2.stopRec st (Except.ok tr)).state.phase = P2.Phase.results ∧
        (P2.stopRec st (Except.ok tr)).state.triageResult = some tr ∧
        (P2.stopRec st (Except.ok tr)).processAudioCalls = 1) ∧
    (∀ tr : TriageResult, tr.transcript = "" →
        ∀ m ∈ (P0.sendAudioMessage P0.audioReady (Except.ok tr)).state.messages,
          m.role ≠ P0.Role.user) := by
  refine ⟨?_, ?_, ?_⟩
  · intro st b tr hb ht
    unfold P0.sendAudioMessage
    rw [hb]
    simp [ht]
  · intro st tr hmr ht
    unfold P2.stopRec
    rw [if_neg (by simp [hmr])]
    simp [ht]
  · intro tr ht m hm
    have hmsg : (P0.sendAudioMessage P0.audioReady (Except.ok tr)).state.messages
        = P0.audioReady.messages := by
      unfold P0.sendAudioMessage
      rw [show P0.audioReady.audioBlob = some ["chunk0"] from rfl]
      simp [ht]
    rw [hmsg] at hm
    have hm2 : m ∈ [(⟨P0.Role.assistant, "Hello! How are you feeling today?", false⟩
        : P0.Msg)] := hm
    rw [List.mem_singleton.mp hm2]
    decide

/-- C10 witness: a concrete successful audio submission with an empty
transcript on each controller. -/
theorem audio_empty_transcript_results_witness :
    (P0.sendAudioMessage P0.audioReady (Except.ok sampleTriage)).state.messages
        = P0.audioReady.messages ∧
    (P0.sendAudioMessage P0.audioReady (Except.ok sampleTriage)).state.phase
        = P0.Phase.results ∧
    (P2.stopRec (P2.startRecOk P2.conv) (Except.ok sampleTriage)).state.phase
        = P2.Phase.results :=
  ⟨(audio_empty_transcript_results.1 P0.audioReady ["chunk0"] sampleTriage rfl rfl).1,
   (audio_empty_transcript_results.1 P0.audioReady ["chunk0"] sampleTriage rfl rfl).2.1,
   (audio_empty_transcript_results.2.1 (P2.startRecOk P2.conv) sampleTriage rfl rfl).2.1⟩

end Cavista
